import Mathlib

/-!
Shallow embedding of src/lib/wallet.js (benepay/ethereum-wallet-api).

Modelling conventions:
* Big.js decimal values (balances, gas, gasPrice, tx values, fees) become
  rationals: the operations used in the source (plus, minus, times, abs,
  comparison, toFixed round trips) are all exact in Big.js, so the rational
  model is faithful.
* JavaScript truthiness on a possibly-absent number (the checks
  "tx.gasUsed ? ... : ..." and "options.minConf || 5") is modelled on
  Option values: none (absent / undefined) and some 0 are falsy, any other
  some value is truthy.
* Raw transaction values returned by the remote API are nonnegative
  canonical decimal strings, so the source's string negation
  "tx.value = minus-sign prepended to tx.value" is numeric negation.
* The cryptographic collaborators (seed-to-keypair derivation, the
  private-key-to-address function) are out of scope per the spec and are
  passed as explicit function parameters; signing is modelled by recording
  in the built transaction which private key was handed to tx.sign.
* Hex encoding of private keys (the 0x-prefixed string produced by
  getPrivateKeyString and decoded again by createPrivateKey) is a
  bijection on 32-byte keys and is elided: a key travels as the natural
  number it encodes, and createPrivateKey keeps the validity check
  (ethUtil.isValidPrivate: nonzero and below the secp256k1 group order).
* Asynchronous remote calls become Except-valued inputs: the wallet
  constructor takes the four lookup outcomes, sendTx takes the broadcast
  outcome and the fetch function, processTx takes the fetch outcome.
  Promise.all is joining the four Except values, failing with the error of
  the failed lookup.
* The callback protocol (done(err) vs done(null, wallet)) becomes the
  Except result: the caller observes either an error or a fully populated
  wallet, exactly what the callbacks deliver.
-/

namespace EthWallet

/-- Error kinds raised by the wallet core (section 7 of the spec). -/
inductive WErr where
  | invalidArgument : String → WErr
  | invalidPrivateKey : WErr
  | insufficientFunds : WErr
  | remote : String → WErr
  deriving DecidableEq, Repr

/-- A transaction record as handled by transformTxs / processTx /
getPendingSpends. Raw records from the API carry fromAddr, toAddr, value,
gas, gasPrice, confirmations and possibly gasUsed; the fee field is
(over)written by transformTx (the JS code mutates the record in place; here
transformTx returns the updated copy). -/
structure Tx where
  fromAddr : String
  toAddr : String
  value : ℚ
  gas : ℚ
  gasPrice : ℚ
  gasUsed : Option ℚ
  confirmations : ℤ
  fee : ℚ
  deriving DecidableEq, Repr

/-- JavaScript truthiness of a possibly-absent number: undefined and 0 are
falsy, every other number is truthy. -/
def jsTruthy (o : Option ℚ) : Bool :=
  match o with
  | none => false
  | some q => decide (q ≠ 0)

/-- transformTx from src/lib/wallet.js lines 142-148: set
fee := gasUsed times gasPrice when tx.gasUsed is truthy, else the sentinel
-1; negate value when the sender is this wallet's address. -/
def transformTx (address : String) (tx : Tx) : Tx :=
  let tx1 : Tx :=
    { tx with fee := if jsTruthy tx.gasUsed then tx.gasUsed.getD 0 * tx.gasPrice else -1 }
  if tx1.fromAddr = address then { tx1 with value := -tx1.value } else tx1

/-- transformTxs on an array argument (src/lib/wallet.js lines 133-141):
maps transformTx over the list. The non-array branch is transformTx
itself (used by processTx on a single fetched transaction). -/
def transformTxs (address : String) (txs : List Tx) : List Tx :=
  txs.map (transformTx address)

/-- The wallet state. etherWallet (the key material) is represented by the
private-key scalar it wraps; addressString, gasPrice, gasLimit, balances,
txsCount, history and minConf match the JS fields. -/
structure Wallet where
  networkName : String
  balance : ℚ
  confirmedBalance : ℚ
  historyTxs : List Tx
  txsCount : ℕ
  privateKey : ℕ
  addressString : String
  gasPrice : ℚ
  gasLimit : ℚ
  minConf : ℤ
  deriving DecidableEq, Repr

/-- Result of api.addresses.balance. -/
structure BalanceInfo where
  balance : ℚ
  confirmedBalance : ℚ
  deriving DecidableEq, Repr

/-- Constructor options (seed, networkName, minConf); done callbacks are
modelled by the Except result. minConf is Option: none is an omitted
argument (undefined). -/
structure WalletOptions where
  seed : String
  networkName : String
  minConf : Option ℤ
  deriving DecidableEq, Repr

/-- The JS default idiom "options.minConf || 5": undefined and 0 fall back
to the default. -/
def jsOrInt (o : Option ℤ) (d : ℤ) : ℤ :=
  match o with
  | none => d
  | some v => if v = 0 then d else v

/-- Promise.all over the four constructor lookups: all must succeed, a
failed lookup fails the join with its error. -/
def promiseAll4 (b : Except WErr BalanceInfo) (t : Except WErr ℕ)
    (g : Except WErr ℚ) (x : Except WErr (List Tx)) :
    Except WErr (BalanceInfo × ℕ × ℚ × List Tx) :=
  match b, t, g, x with
  | .error e, _, _, _ => .error e
  | .ok _, .error e, _, _ => .error e
  | .ok _, .ok _, .error e, _ => .error e
  | .ok _, .ok _, .ok _, .error e => .error e
  | .ok bi, .ok tc, .ok gp, .ok txs => .ok (bi, tc, gp, txs)

/-- The Wallet constructor (src/lib/wallet.js lines 16-66). seedToKey and
addrOfKey are the out-of-scope cryptographic collaborators
(hdkey.fromMasterSeed(seed).getWallet() and getAddressString). The assert
on the seed fires synchronously: an empty (falsy) seed yields
InvalidArgument whatever the remote lookups hold. On success every field
is populated from the joined lookup results; gasLimit is the fixed default
21000. -/
def walletCtor (seedToKey : String → ℕ) (addrOfKey : ℕ → String)
    (opts : WalletOptions)
    (balanceLookup : Except WErr BalanceInfo) (txsCountLookup : Except WErr ℕ)
    (gasPriceLookup : Except WErr ℚ) (txsLookup : Except WErr (List Tx)) :
    Except WErr Wallet :=
  if opts.seed = "" then
    .error (.invalidArgument "seed cannot be empty")
  else
    let key := seedToKey opts.seed
    let address := addrOfKey key
    match promiseAll4 balanceLookup txsCountLookup gasPriceLookup txsLookup with
    | .error e => .error e
    | .ok (bi, tc, gp, txs) =>
        .ok { networkName := opts.networkName
              balance := bi.balance
              confirmedBalance := bi.confirmedBalance
              historyTxs := transformTxs address txs
              txsCount := tc
              privateKey := key
              addressString := address
              gasPrice := gp
              gasLimit := 21000
              minConf := jsOrInt opts.minConf 5 }

/-- getBalance (src/lib/wallet.js lines 68-70). -/
def getBalance (w : Wallet) : ℚ := w.balance

/-- getPendingSpends (src/lib/wallet.js lines 95-104): reduce over the
history, adding abs(value) + gas times gasPrice for every entry with
confirmations below minConf whose sender is this wallet. -/
def getPendingSpends (w : Wallet) : ℚ :=
  w.historyTxs.foldl
    (fun sum tx =>
      if tx.confirmations < w.minConf ∧ tx.fromAddr = w.addressString then
        sum + (|tx.value| + tx.gas * tx.gasPrice)
      else sum)
    0

/-- getDefaultFee (src/lib/wallet.js lines 106-108). -/
def getDefaultFee (w : Wallet) : ℚ := w.gasLimit * w.gasPrice

/-- processTx (src/lib/wallet.js lines 118-131). The remote fetch
api.transactions.get(txId, address) is the Except-valued input. On
success: normalize the fetched record, debit balance by value minus
maxFee, bump txsCount when this wallet is the sender, prepend to history;
on failure the error is handed to the caller and the wallet is untouched. -/
def processTx (w : Wallet) (fetched : Except WErr Tx) : Except WErr Tx × Wallet :=
  match fetched with
  | .error e => (.error e, w)
  | .ok raw =>
      let historyTx := transformTx w.addressString raw
      let maxFee := historyTx.gas * historyTx.gasPrice
      let w1 := { w with balance := w.balance + historyTx.value - maxFee }
      let w2 := if historyTx.fromAddr = w1.addressString then
                  { w1 with txsCount := w1.txsCount + 1 }
                else w1
      let w3 := { w2 with historyTxs := historyTx :: w2.historyTxs }
      (.ok historyTx, w3)

/-- sendTx (src/lib/wallet.js lines 110-116). The broadcast
api.transactions.propagate(rawtx) is the Except-valued input; on success
its transaction id is fed to the fetch function and processTx runs; a
broadcast failure is handed to the caller with the wallet untouched. -/
def sendTx (w : Wallet) (propagate : Except WErr String)
    (fetch : String → Except WErr Tx) : Except WErr Tx × Wallet :=
  match propagate with
  | .error e => (.error e, w)
  | .ok txId => processTx w (fetch txId)

/-- Order of the secp256k1 group, the bound ethUtil.isValidPrivate checks
a 32-byte private key against. -/
def secp256k1N : ℕ :=
  115792089237316195423570985008687907852837564279074904382605163141518161494337

/-- ethUtil.isValidPrivate: the scalar is nonzero and below the group
order. -/
def isValidPrivate (k : ℕ) : Bool :=
  decide (0 < k) && decide (k < secp256k1N)

/-- createPrivateKey (src/lib/wallet.js lines 163-172): hex decoding of the
0x-prefixed string is elided (see the header note); the validity check is
kept and a bad key is the Invalid private key error. -/
def createPrivateKey (k : ℕ) : Except WErr ℕ :=
  if isValidPrivate k then .ok k else .error .invalidPrivateKey

/-- Options handed to createImportTx by getImportTxOptions plus the
destination address: the foreign account's confirmed balance (amount), the
fee chosen by the caller, the foreign account's txsCount and private key,
and the destination. -/
structure ImportTxOptions where
  amount : ℚ
  fee : ℚ
  txsCount : ℕ
  toAddr : String
  privateKey : ℕ
  deriving DecidableEq, Repr

/-- A built-and-signed EthereumTx: the field object handed to the
EthereumTx constructor plus the private key handed to tx.sign. -/
structure SignedTx where
  nonce : ℕ
  gasPrice : ℚ
  gasLimit : ℚ
  toAddr : String
  value : ℚ
  chainId : ℕ
  signedWith : ℕ
  deriving DecidableEq, Repr

/-- createImportTx (src/lib/wallet.js lines 174-189): sendAmount is
amount minus fee; strictly negative sendAmount is the Insufficient funds
error; otherwise the transaction is built with the foreign nonce, this
wallet's gasPrice and gasLimit, value sendAmount, chainId 1, and signed
with the foreign private key. -/
def createImportTx (w : Wallet) (options : ImportTxOptions) : Except WErr SignedTx :=
  let amount := options.amount - options.fee
  if amount < 0 then
    .error .insufficientFunds
  else
    .ok { nonce := options.txsCount
          gasPrice := w.gasPrice
          gasLimit := w.gasLimit
          toAddr := options.toAddr
          value := amount
          chainId := 1
          signedWith := options.privateKey }

/-- The persisted wallet record (src/lib/wallet.js lines 213-226): the
JSON object produced by serialize, with the private key as the scalar its
hex string encodes. -/
structure SerializedWallet where
  networkName : String
  balance : ℚ
  confirmedBalance : ℚ
  historyTxs : List Tx
  txsCount : ℕ
  privateKey : ℕ
  addressString : String
  gasPrice : ℚ
  gasLimit : ℚ
  minConf : ℤ
  deriving DecidableEq, Repr

/-- serialize (src/lib/wallet.js lines 213-226). Note the source writes
addressString from this.etherWallet.getAddressString(), i.e. re-derived
from the key material, not from this.addressString; addrOfKey is that
derivation. JSON stringify/parse is the identity on this record. -/
def serialize (addrOfKey : ℕ → String) (w : Wallet) : SerializedWallet :=
  { networkName := w.networkName
    balance := getBalance w
    confirmedBalance := w.confirmedBalance
    historyTxs := w.historyTxs
    txsCount := w.txsCount
    privateKey := w.privateKey
    addressString := addrOfKey w.privateKey
    gasPrice := w.gasPrice
    gasLimit := w.gasLimit
    minConf := w.minConf }

/-- deserialize (src/lib/wallet.js lines 228-245): parse the private key
through createPrivateKey (its failure propagates), rebuild the key
material from it, and copy every other field verbatim from the record —
including addressString, which is copied, not re-derived. -/
def deserialize (record : SerializedWallet) : Except WErr Wallet :=
  match createPrivateKey record.privateKey with
  | .error e => .error e
  | .ok pk =>
      .ok { networkName := record.networkName
            balance := record.balance
            confirmedBalance := record.confirmedBalance
            historyTxs := record.historyTxs
            txsCount := record.txsCount
            privateKey := pk
            addressString := record.addressString
            gasPrice := record.gasPrice
            gasLimit := record.gasLimit
            minConf := record.minConf }

/-- The key-material invariant of section 3 of the spec: the stored
address equals the address derivable from the wallet's key material. -/
def addrInvariant (addrOfKey : ℕ → String) (w : Wallet) : Prop :=
  w.addressString = addrOfKey w.privateKey

/-- Spec-side predicate for getPendingSpends: a history entry counts when
its confirmations are below minConf and its sender is this wallet. -/
def pendingEntry (w : Wallet) (tx : Tx) : Bool :=
  decide (tx.confirmations < w.minConf ∧ tx.fromAddr = w.addressString)

/-- Spec-side weight of a pending entry: absolute value plus gas times
gasPrice. -/
def pendingAmount (tx : Tx) : ℚ := |tx.value| + tx.gas * tx.gasPrice

/-- Concrete address-derivation stand-in used by witnesses and
counterexamples (the theorems themselves quantify over the derivation). -/
def addrOfKey0 : ℕ → String := fun k => "0x" ++ toString k

/-- Concrete seed-derivation stand-in used by witnesses. -/
def seedToKey0 : String → ℕ := fun s => s.length + 7

/-- Concrete wallet used by witnesses and counterexamples; it satisfies
the key-material invariant with respect to addrOfKey0. -/
def baseWallet : Wallet :=
  { networkName := "mainnet"
    balance := 1000
    confirmedBalance := 900
    historyTxs := []
    txsCount := 3
    privateKey := 7
    addressString := "0x7"
    gasPrice := 2
    gasLimit := 21000
    minConf := 5 }

/-- Import options with amount equal to fee (sendAmount exactly 0). -/
def importEqOptions : ImportTxOptions :=
  { amount := 100, fee := 100, txsCount := 4, toAddr := "0x7", privateKey := 9 }

/-- Import options with amount strictly above fee. -/
def importOkOptions : ImportTxOptions :=
  { amount := 300, fee := 100, txsCount := 4, toAddr := "0x7", privateKey := 9 }

/-- A raw transaction that reports gasUsed = 0. -/
def zeroGasUsedTx : Tx :=
  { fromAddr := "0xother", toAddr := "0x7", value := 30, gas := 21000,
    gasPrice := 7, gasUsed := some 0, confirmations := 1, fee := 0 }

/-- A raw transaction with a reported nonzero gasUsed, sent by the
0x7 wallet. -/
def usedGasTx : Tx :=
  { fromAddr := "0x7", toAddr := "0xother", value := 30, gas := 21000,
    gasPrice := 2, gasUsed := some 21000, confirmations := 0, fee := 0 }

/-- A persisted record whose stored address does not match its private
key under addrOfKey0. -/
def badRecord : SerializedWallet :=
  { networkName := "mainnet", balance := 0, confirmedBalance := 0,
    historyTxs := [], txsCount := 0, privateKey := 7,
    addressString := "0xintruder", gasPrice := 2, gasLimit := 21000,
    minConf := 5 }

/-- The wallet deserialize produces from badRecord. -/
def badWallet : Wallet :=
  { networkName := "mainnet", balance := 0, confirmedBalance := 0,
    historyTxs := [], txsCount := 0, privateKey := 7,
    addressString := "0xintruder", gasPrice := 2, gasLimit := 21000,
    minConf := 5 }

lemma transformTx_fromAddr (a : String) (t : Tx) :
    (transformTx a t).fromAddr = t.fromAddr := by
  simp only [transformTx]
  split <;> rfl

lemma transformTx_gas (a : String) (t : Tx) :
    (transformTx a t).gas = t.gas := by
  simp only [transformTx]
  split <;> rfl

lemma transformTx_gasPrice (a : String) (t : Tx) :
    (transformTx a t).gasPrice = t.gasPrice := by
  simp only [transformTx]
  split <;> rfl

/-- C9: getDefaultFee is exactly gasLimit times gasPrice; in particular a
wallet with gasLimit 21000 and gasPrice 2 yields 42000. -/
theorem getDefaultFee_spec :
    (∀ w : Wallet, getDefaultFee w = w.gasLimit * w.gasPrice) ∧
    getDefaultFee baseWallet = 42000 := by
  refine ⟨fun w => rfl, ?_⟩
  norm_num [getDefaultFee, baseWallet]

lemma getPendingSpends_foldl (w : Wallet) (l : List Tx) (acc : ℚ) :
    l.foldl
      (fun sum tx =>
        if tx.confirmations < w.minConf ∧ tx.fromAddr = w.addressString then
          sum + (|tx.value| + tx.gas * tx.gasPrice)
        else sum)
      acc
      = acc + ((l.filter (pendingEntry w)).map pendingAmount).sum := by
  induction l generalizing acc with
  | nil => simp
  | cons tx rest ih =>
      by_cases h : tx.confirmations < w.minConf ∧ tx.fromAddr = w.addressString
      · simp [List.foldl_cons, List.filter_cons, pendingEntry, pendingAmount,
          h, ih]
        ring
      · simp [List.foldl_cons, List.filter_cons, pendingEntry, h, ih]

/-- C4: getPendingSpends equals, exactly, the sum over the history entries
with confirmations below minConf and sender equal to this wallet's
address, of the absolute value plus gas times gasPrice; all other entries
contribute nothing. -/
theorem getPendingSpends_spec (w : Wallet) :
    getPendingSpends w =
      ((w.historyTxs.filter (pendingEntry w)).map pendingAmount).sum := by
  unfold getPendingSpends
  rw [getPendingSpends_foldl]
  ring

/-- C3: on a successfully fetched transaction, processTx normalizes it,
sets balance to balance plus the signed normalized value minus
maxFee = gas times gasPrice, increments txsCount by exactly one iff the
sender is this wallet's address, and prepends the normalized entry to the
history. -/
theorem processTx_spec (w : Wallet) (raw : Tx) :
    processTx w (.ok raw) =
      (.ok (transformTx w.addressString raw),
       { w with
         balance := w.balance + (transformTx w.addressString raw).value
                      - raw.gas * raw.gasPrice,
         txsCount := w.txsCount + (if raw.fromAddr = w.addressString then 1 else 0),
         historyTxs := transformTx w.addressString raw :: w.historyTxs }) := by
  unfold processTx
  by_cases h : raw.fromAddr = w.addressString
  · simp [transformTx_fromAddr, transformTx_gas, transformTx_gasPrice, h]
  · simp [transformTx_fromAddr, transformTx_gas, transformTx_gasPrice, h]

/-- C7: a failed broadcast, or a failed fetch of the broadcast
transaction, propagates its error verbatim and leaves the wallet state
(balance, txsCount, historyTxs, everything) exactly as it was. -/
theorem sendTx_failure_spec (w : Wallet) (e : WErr)
    (propagate : Except WErr String) (fetch : String → Except WErr Tx) :
    (propagate = .error e → sendTx w propagate fetch = (.error e, w)) ∧
    (∀ txId, propagate = .ok txId → fetch txId = .error e →
       sendTx w propagate fetch = (.error e, w)) := by
  constructor
  · intro h
    subst h
    rfl
  · intro txId hp hf
    subst hp
    simp [sendTx, processTx, hf]

/-- Witness for C7 at a concrete wallet, error, broadcast outcome and
fetch function. -/
theorem sendTx_failure_spec_witness :
    sendTx baseWallet (.error (.remote "boom"))
        (fun _ => .error (.remote "boom")) =
      (.error (.remote "boom"), baseWallet) :=
  (sendTx_failure_spec baseWallet (.remote "boom") (.error (.remote "boom"))
    (fun _ => .error (.remote "boom"))).1 rfl

/-- C1 counterexample: with amount = fee = 100 (so the import amount is ≤
the fee), createImportTx does not fail with InsufficientFunds — it builds
and signs a zero-value transaction, refuting the claim that the failure
happens exactly when amount ≤ fee. -/
theorem createImportTx_claim_cex :
    importEqOptions.amount ≤ importEqOptions.fee ∧
    createImportTx baseWallet importEqOptions =
      .ok { nonce := 4, gasPrice := 2, gasLimit := 21000, toAddr := "0x7",
            value := 0, chainId := 1, signedWith := 9 } := by
  constructor
  · norm_num [importEqOptions]
  · norm_num [createImportTx, baseWallet, importEqOptions, Except.ok.injEq,
      SignedTx.mk.injEq]

/-- C1 (amended): createImportTx computes sendAmount = amount minus fee
and fails with InsufficientFunds, building and signing nothing, exactly
when amount is strictly below fee (sendAmount < 0); otherwise — including
the boundary amount = fee — it returns a signed transaction whose value is
sendAmount, whose nonce is the foreign account's txsCount, and whose
gasPrice and gasLimit come from this wallet's state, signed with the
foreign private key. -/
theorem createImportTx_spec (w : Wallet) (o : ImportTxOptions) :
    (createImportTx w o = .error .insufficientFunds ↔ o.amount < o.fee) ∧
    (o.fee ≤ o.amount →
      createImportTx w o =
        .ok { nonce := o.txsCount, gasPrice := w.gasPrice,
              gasLimit := w.gasLimit, toAddr := o.toAddr,
              value := o.amount - o.fee, chainId := 1,
              signedWith := o.privateKey }) := by
  unfold createImportTx
  constructor
  · constructor
    · intro h
      by_cases hlt : o.amount - o.fee < 0
      · linarith
      · simp [hlt] at h
    · intro h
      have hlt : o.amount - o.fee < 0 := by linarith
      simp [hlt]
  · intro h
    have hge : ¬ o.amount - o.fee < 0 := by linarith
    simp [hge]

/-- Witness for C1 at a concrete wallet and concrete import options with
amount 300 and fee 100. -/
theorem createImportTx_spec_witness :
    createImportTx baseWallet importOkOptions =
      .ok { nonce := importOkOptions.txsCount, gasPrice := baseWallet.gasPrice,
            gasLimit := baseWallet.gasLimit, toAddr := importOkOptions.toAddr,
            value := importOkOptions.amount - importOkOptions.fee, chainId := 1,
            signedWith := importOkOptions.privateKey } :=
  (createImportTx_spec baseWallet importOkOptions).2 (by norm_num [importOkOptions])

/-- C2 counterexample: a raw transaction that reports gasUsed = 0 receives
the -1 sentinel, not gasUsed times gasPrice = 0, refuting the claim that
fee = gasUsed times gasPrice whenever the transaction reports its gas
used. -/
theorem transformTx_claim_cex :
    zeroGasUsedTx.gasUsed = some 0 ∧
    (transformTx "0x7" zeroGasUsedTx).fee = -1 ∧
    (-1 : ℚ) ≠ (0 : ℚ) * zeroGasUsedTx.gasPrice := by
  refine ⟨rfl, rfl, ?_⟩
  norm_num [zeroGasUsedTx]

/-- C2 (amended): transformTx sets fee = gasUsed times gasPrice whenever
the transaction reports a nonzero gasUsed, and marks fee with the -1
sentinel — distinct from zero — when gasUsed is absent or reported as 0
(the source's truthiness test also sends a reported zero to the
sentinel); it negates value exactly when the sender is this wallet's
address, so that for positive raw values inflow/outflow is encoded purely
by the sign of value. -/
theorem transformTx_spec (address : String) (tx : Tx) :
    (∀ g : ℚ, tx.gasUsed = some g → g ≠ 0 →
       (transformTx address tx).fee = g * tx.gasPrice) ∧
    ((tx.gasUsed = none ∨ tx.gasUsed = some 0) →
       (transformTx address tx).fee = -1 ∧ (transformTx address tx).fee ≠ 0) ∧
    ((transformTx address tx).value =
       if tx.fromAddr = address then -tx.value else tx.value) ∧
    (0 < tx.value →
       ((transformTx address tx).value < 0 ↔ tx.fromAddr = address)) := by
  refine ⟨?_, ?_, ?_, ?_⟩
  · intro g hg hne
    simp only [transformTx, jsTruthy, hg]
    split <;> simp_all
  · rintro (hg | hg) <;>
      · simp only [transformTx, jsTruthy, hg]
        split <;> norm_num
  · simp only [transformTx, jsTruthy]
    split <;> split <;> simp_all
  · intro hpos
    simp only [transformTx, jsTruthy]
    constructor
    · intro hneg
      by_contra hfrom
      revert hneg
      split <;> split <;> simp_all <;> linarith
    · intro hfrom
      split <;> split <;> simp_all

/-- Witness for C2 at a concrete address and a concrete transaction with
reported gasUsed 21000 sent by this wallet. -/
theorem transformTx_spec_witness :
    (transformTx "0x7" usedGasTx).fee = 21000 * usedGasTx.gasPrice :=
  (transformTx_spec "0x7" usedGasTx).1 21000 rfl (by norm_num)

/-- C5: construction with an empty (falsy) seed fails with InvalidArgument
whatever the remote lookups return (so no remote result is consulted); a
failed lookup fails construction with exactly that lookup's error; and the
caller receives either an error or a fully populated wallet — whenever
construction succeeds, all four lookups succeeded and every wallet field
is determined by them (balance and confirmedBalance from the balance
lookup, txsCount from the count lookup, gasPrice from the gas-price
lookup, the history normalized from the history lookup, with the fixed
gasLimit and the defaulted minConf). -/
theorem walletCtor_spec (seedToKey : String → ℕ) (addrOfKey : ℕ → String)
    (opts : WalletOptions) (b : Except WErr BalanceInfo) (t : Except WErr ℕ)
    (g : Except WErr ℚ) (x : Except WErr (List Tx)) :
    (opts.seed = "" →
       walletCtor seedToKey addrOfKey opts b t g x =
         .error (.invalidArgument "seed cannot be empty")) ∧
    (∀ e, opts.seed ≠ "" → b = .error e →
       walletCtor seedToKey addrOfKey opts b t g x = .error e) ∧
    (∀ e bi, opts.seed ≠ "" → b = .ok bi → t = .error e →
       walletCtor seedToKey addrOfKey opts b t g x = .error e) ∧
    (∀ e bi tc, opts.seed ≠ "" → b = .ok bi → t = .ok tc → g = .error e →
       walletCtor seedToKey addrOfKey opts b t g x = .error e) ∧
    (∀ e bi tc gp, opts.seed ≠ "" → b = .ok bi → t = .ok tc → g = .ok gp →
       x = .error e →
       walletCtor seedToKey addrOfKey opts b t g x = .error e) ∧
    (∀ w, walletCtor seedToKey addrOfKey opts b t g x = .ok w →
       opts.seed ≠ "" ∧ ∃ bi tc gp txs,
         b = .ok bi ∧ t = .ok tc ∧ g = .ok gp ∧ x = .ok txs ∧
         w = { networkName := opts.networkName
               balance := bi.balance
               confirmedBalance := bi.confirmedBalance
               historyTxs := transformTxs (addrOfKey (seedToKey opts.seed)) txs
               txsCount := tc
               privateKey := seedToKey opts.seed
               addressString := addrOfKey (seedToKey opts.seed)
               gasPrice := gp
               gasLimit := 21000
               minConf := jsOrInt opts.minConf 5 }) := by
  refine ⟨?_, ?_, ?_, ?_, ?_, ?_⟩
  · intro hs
    simp [walletCtor, hs]
  · intro e hs hb
    subst hb
    simp [walletCtor, promiseAll4, hs]
  · intro e bi hs hb ht
    subst hb; subst ht
    simp [walletCtor, promiseAll4, hs]
  · intro e bi tc hs hb ht hg
    subst hb; subst ht; subst hg
    simp [walletCtor, promiseAll4, hs]
  · intro e bi tc gp hs hb ht hg hx
    subst hb; subst ht; subst hg; subst hx
    simp [walletCtor, promiseAll4, hs]
  · intro w hw
    by_cases hs : opts.seed = ""
    · simp [walletCtor, hs] at hw
    · refine ⟨hs, ?_⟩
      cases b with
      | error e => simp [walletCtor, promiseAll4, hs] at hw
      | ok bi =>
        cases t with
        | error e => simp [walletCtor, promiseAll4, hs] at hw
        | ok tc =>
          cases g with
          | error e => simp [walletCtor, promiseAll4, hs] at hw
          | ok gp =>
            cases x with
            | error e => simp [walletCtor, promiseAll4, hs] at hw
            | ok txs =>
              refine ⟨bi, tc, gp, txs, rfl, rfl, rfl, rfl, ?_⟩
              simp [walletCtor, promiseAll4, hs] at hw
              exact hw.symm

/-- Witness for C5: construction with an empty seed fails with
InvalidArgument even when every remote lookup succeeds. -/
theorem walletCtor_spec_witness :
    walletCtor seedToKey0 addrOfKey0
        { seed := "", networkName := "mainnet", minConf := none }
        (.ok { balance := 5, confirmedBalance := 5 }) (.ok 0) (.ok 2) (.ok []) =
      .error (.invalidArgument "seed cannot be empty") :=
  (walletCtor_spec seedToKey0 addrOfKey0
      { seed := "", networkName := "mainnet", minConf := none }
      (.ok { balance := 5, confirmedBalance := 5 }) (.ok 0) (.ok 2) (.ok [])).1 rfl

/-- C10: the minConf default is applied by truthiness, so a construction
call with minConf 0 — just like one with minConf omitted — yields a
wallet with minConf 5: a caller cannot set a minimum-confirmation
threshold of 0. -/
theorem minConf_falsy_default (seedToKey : String → ℕ) (addrOfKey : ℕ → String)
    (opts : WalletOptions) (b : Except WErr BalanceInfo) (t : Except WErr ℕ)
    (g : Except WErr ℚ) (x : Except WErr (List Tx)) (w : Wallet)
    (hfalsy : opts.minConf = some 0 ∨ opts.minConf = none)
    (hok : walletCtor seedToKey addrOfKey opts b t g x = .ok w) :
    w.minConf = 5 := by
  by_cases hs : opts.seed = ""
  · simp [walletCtor, hs] at hok
  · cases b with
    | error e => simp [walletCtor, promiseAll4, hs] at hok
    | ok bi =>
      cases t with
      | error e => simp [walletCtor, promiseAll4, hs] at hok
      | ok tc =>
        cases g with
        | error e => simp [walletCtor, promiseAll4, hs] at hok
        | ok gp =>
          cases x with
          | error e => simp [walletCtor, promiseAll4, hs] at hok
          | ok txs =>
            simp [walletCtor, promiseAll4, hs] at hok
            rcases hfalsy with hf | hf <;> simp [← hok, jsOrInt, hf]

/-- Witness for C10: a construction call with minConf 0 and successful
lookups produces a wallet whose minConf is 5. -/
theorem minConf_falsy_default_witness :
    ({ networkName := "mainnet", balance := 5, confirmedBalance := 5,
       historyTxs := [], txsCount := 0, privateKey := 8,
       addressString := "0x8", gasPrice := 2, gasLimit := 21000,
       minConf := 5 } : Wallet).minConf = 5 :=
  minConf_falsy_default seedToKey0 addrOfKey0
    { seed := "s", networkName := "mainnet", minConf := some 0 }
    (.ok { balance := 5, confirmedBalance := 5 }) (.ok 0) (.ok 2) (.ok [])
    { networkName := "mainnet", balance := 5, confirmedBalance := 5,
      historyTxs := [], txsCount := 0, privateKey := 8,
      addressString := "0x8", gasPrice := 2, gasLimit := 21000,
      minConf := 5 }
    (Or.inl rfl) rfl

/-- C6: deserialize after serialize reproduces the wallet exactly: every
persisted field (networkName, balance, confirmedBalance, historyTxs,
txsCount, gasPrice, gasLimit, minConf) and in particular the address are
unchanged across the round trip, with the key material rebuilt from the
persisted private key; the hypotheses are the wallet well-formedness the
constructor establishes — a valid private scalar and the key-material
invariant. -/
theorem serialize_deserialize_roundtrip (addrOfKey : ℕ → String) (w : Wallet)
    (hkey : isValidPrivate w.privateKey = true)
    (haddr : addrInvariant addrOfKey w) :
    deserialize (serialize addrOfKey w) = .ok w := by
  unfold addrInvariant at haddr
  simp [deserialize, serialize, createPrivateKey, hkey, getBalance, ← haddr]

/-- Witness for C6: the round trip at a concrete wallet. -/
theorem serialize_deserialize_roundtrip_witness :
    deserialize (serialize addrOfKey0 baseWallet) = .ok baseWallet :=
  serialize_deserialize_roundtrip addrOfKey0 baseWallet (by decide) rfl

lemma processTx_snd_addressString (w : Wallet) (f : Except WErr Tx) :
    ((processTx w f).2).addressString = w.addressString := by
  cases f with
  | error e => rfl
  | ok raw =>
      simp only [processTx]
      split <;> rfl

lemma processTx_snd_privateKey (w : Wallet) (f : Except WErr Tx) :
    ((processTx w f).2).privateKey = w.privateKey := by
  cases f with
  | error e => rfl
  | ok raw =>
      simp only [processTx]
      split <;> rfl

/-- C8 (amended): the key-material invariant — the stored address equals
the address derivable from the wallet's key material — holds for every
wallet the constructor returns, is preserved by processTx and sendTx
(which never touch the key material or the address), and holds for the
wallet deserialized from a record that serialize produced; deserialize,
however, copies the stored address verbatim instead of re-deriving it, so
deserializing an arbitrary record whose address does not match its
private key yields a wallet violating the invariant (counterexample
below). -/
theorem addrInvariant_spec (seedToKey : String → ℕ) (addrOfKey : ℕ → String) :
    (∀ opts b t g x w, walletCtor seedToKey addrOfKey opts b t g x = .ok w →
       addrInvariant addrOfKey w) ∧
    (∀ w f r w', addrInvariant addrOfKey w →
       processTx w f = (r, w') → addrInvariant addrOfKey w') ∧
    (∀ w p fetch r w', addrInvariant addrOfKey w →
       sendTx w p fetch = (r, w') → addrInvariant addrOfKey w') ∧
    (∀ w w', deserialize (serialize addrOfKey w) = .ok w' →
       addrInvariant addrOfKey w') := by
  refine ⟨?_, ?_, ?_, ?_⟩
  · intro opts b t g x w hw
    by_cases hs : opts.seed = ""
    · simp [walletCtor, hs] at hw
    · cases b with
      | error e => simp [walletCtor, promiseAll4, hs] at hw
      | ok bi =>
        cases t with
        | error e => simp [walletCtor, promiseAll4, hs] at hw
        | ok tc =>
          cases g with
          | error e => simp [walletCtor, promiseAll4, hs] at hw
          | ok gp =>
            cases x with
            | error e => simp [walletCtor, promiseAll4, hs] at hw
            | ok txs =>
              simp [walletCtor, promiseAll4, hs] at hw
              simp [← hw, addrInvariant]
  · intro w f r w' hw h
    have h2 : w' = (processTx w f).2 := by rw [h]
    unfold addrInvariant at *
    rw [h2, processTx_snd_addressString, processTx_snd_privateKey]
    exact hw
  · intro w p fetch r w' hw h
    cases p with
    | error e =>
        simp only [sendTx] at h
        cases h
        exact hw
    | ok txId =>
        simp only [sendTx] at h
        have h2 : w' = (processTx w (fetch txId)).2 := by rw [h]
        unfold addrInvariant at *
        rw [h2, processTx_snd_addressString, processTx_snd_privateKey]
        exact hw
  · intro w w' h
    by_cases hkey : isValidPrivate w.privateKey = true
    · simp [deserialize, serialize, createPrivateKey, hkey, getBalance] at h
      simp [← h, addrInvariant]
    · simp [deserialize, serialize, createPrivateKey, hkey] at h

/-- Witness for C8: the invariant inferred for a concrete wallet from its
own serialize-deserialize round trip. -/
theorem addrInvariant_spec_witness :
    addrInvariant addrOfKey0 baseWallet :=
  (addrInvariant_spec seedToKey0 addrOfKey0).2.2.2 baseWallet baseWallet rfl

/-- C8 counterexample: badRecord holds the valid private key 7 together
with an unrelated stored address; deserialize succeeds and copies the
address verbatim, producing a wallet whose stored address is not the
address derivable from its key material. -/
theorem deserialize_invariant_cex :
    deserialize badRecord = .ok badWallet ∧
    ¬ addrInvariant addrOfKey0 badWallet := by
  constructor
  · rfl
  · intro h
    have h2 : badWallet.addressString = addrOfKey0 badWallet.privateKey := h
    exact absurd h2 (by decide)

end EthWallet
